import Mathlib

/-
Verification development for the clidup database backup/restore CLI.

Shallow embedding conventions:
* Python strings are modeled as `List Char` (abbreviated `Str`); `"lit".data`
  denotes a string literal.
* Each subprocess invocation is modeled as a `SpawnSpec` recording the argv
  list, the optional MYSQL_PWD environment entry, the timeout in seconds and
  the optional stdin file.
* Wall-clock timestamps are modeled as an explicit `Str` parameter; the shape
  produced by `datetime.now().strftime("%Y-%m-%d_%H-%M-%S")` is captured by
  the predicate `validTS`.
* Fallible operations return `Except` values; the outcome of running an
  external tool is abstracted by `RunOutcome`.
-/

namespace Clidup

abbrev Str : Type := List Char

/-! ## Filename codec (src/clidup/cli/main.py, extract_db_name_from_filename) -/

/-- Fueled worker for Python `str.replace(pat, '')`: scans left to right and
deletes every non-overlapping occurrence of `pat`.  The fuel (initialized to
the length of the list) only serves to make the recursion structural; one unit
is spent per consumed character. -/
def removeAllF (pat : Str) : Nat → Str → Str
  | _, [] => []
  | 0, l => l
  | Nat.succ fuel, c :: rest =>
      if pat.isPrefixOf (c :: rest) && !pat.isEmpty then
        removeAllF pat fuel (rest.drop (pat.length - 1))
      else
        c :: removeAllF pat fuel rest

/-- Python `s.replace(pat, '')`. -/
def removeAll (pat l : Str) : Str := removeAllF pat l.length l

/-- End-of-match test for the regex anchor `$` (with Python semantics: the end
of the string, or just before a single trailing newline). -/
def dtEnd (l : Str) : Bool := l == [] || l == ['\n']

/-- Matches the regex tail `(?:-\d\d)?$` after the minutes group. -/
def dtRest (rest : Str) : Bool :=
  dtEnd rest ||
    (match rest with
     | '-' :: a :: b :: r => a.isDigit && b.isDigit && dtEnd r
     | _ => false)

/-- Matches the anchored regex suffix
`\d\d\d\d-\d\d-\d\d_\d\d-\d\d(?:-\d\d)?$` against the whole list. -/
def matchDT : Str → Bool
  | y1 :: y2 :: y3 :: y4 :: '-' :: mo1 :: mo2 :: '-' :: d1 :: d2 :: '_' ::
    h1 :: h2 :: '-' :: mi1 :: mi2 :: rest =>
      y1.isDigit && y2.isDigit && y3.isDigit && y4.isDigit &&
      mo1.isDigit && mo2.isDigit && d1.isDigit && d2.isDigit &&
      h1.isDigit && h2.isDigit && mi1.isDigit && mi2.isDigit &&
      dtRest rest
  | _ => false

/-- Does the remainder of the filename match the literal `_full_` followed by
the timestamp pattern up to the end anchor? -/
def tailMatch (rest : Str) : Bool :=
  "_full_".data.isPrefixOf rest && matchDT (rest.drop 6)

/-- Non-greedy scan for the capture group `(.+?)`: the group (accumulated in
`acc`) grows one character at a time, and the shortest group whose remainder
matches `_full_<timestamp>$` wins.  `.` does not match a newline, so the scan
aborts on `'\n'`. -/
def scanSplit (acc : Str) : Str → Option Str
  | [] => none
  | c :: rest =>
      if c = '\n' then none
      else if tailMatch rest then some (acc ++ [c])
      else scanSplit (acc ++ [c]) rest

/-- `extract_db_name_from_filename` from src/clidup/cli/main.py: strips the
extensions `.tar.gz`, `.tar`, `.sql` (in that order, every occurrence, as
Python `str.replace` does) and then matches
`^postgres_(.+?)_full_\d{4}-\d{2}-\d{2}_\d{2}-\d{2}(?:-\d{2})?$`,
returning the non-greedy capture group. -/
def extract_db_name_from_filename (filename : Str) : Option Str :=
  let name := removeAll ".sql".data (removeAll ".tar".data (removeAll ".tar.gz".data filename))
  if "postgres_".data.isPrefixOf name then scanSplit [] (name.drop 9) else none

/-- Well-formedness of a timestamp string as produced by
`datetime.now().strftime("%Y-%m-%d_%H-%M-%S")`: nineteen characters of the
full date-time shape including seconds. -/
def validTS (ts : Str) : Bool := matchDT ts && ts.length == 19

/-- Boolean substring test (Python `pat in s`). -/
def hasSub (pat : Str) : Str → Bool
  | [] => pat == []
  | c :: rest => pat.isPrefixOf (c :: rest) || hasSub pat rest

/-- Python `str(n)` for the integer port. -/
def portStr (n : Nat) : Str := (toString n).data

/-- Characters removed by Python `str.strip()` (ASCII whitespace). -/
def isPySpace (c : Char) : Bool :=
  c == ' ' || c == '\t' || c == '\n' || c == '\r' || c == '\x0B' || c == '\x0C'

/-- Python `s.strip()`. -/
def pyStrip (s : Str) : Str :=
  ((s.dropWhile isPySpace).reverse.dropWhile isPySpace).reverse

/-- The final path component (`pathlib.PurePath.name` for plain relative or
absolute paths without trailing separators). -/
def pathName (p : Str) : Str := (p.reverse.takeWhile (· ≠ '/')).reverse

/-- `pathlib.PurePath.stem`: the final component without its suffix; the
suffix is the part after the last dot provided that dot is neither the first
nor the last character of the component. -/
def pathStem (p : Str) : Str :=
  let nm := pathName p
  if nm.contains '.' then
    let after := nm.reverse.takeWhile (· ≠ '.')
    let i := nm.length - after.length - 1
    if 0 < i ∧ i < nm.length - 1 then nm.take i else nm
  else nm

/-! ## Default backup names (src/clidup/databases/{mysql,mongodb,sqlite}.py) -/

namespace MySQLHandler

/-- `MySQLHandler.get_default_backup_name`:
`f"mysql_{database}_full_{timestamp}.sql"`. -/
def get_default_backup_name (database ts : Str) : Str :=
  "mysql_".data ++ database ++ "_full_".data ++ ts ++ ".sql".data

end MySQLHandler

namespace MongoDBHandler

/-- `MongoDBHandler.get_default_backup_name`:
`f"mongo_{db_part}_{timestamp}.archive"` where `db_part` falls back from the
argument to the configured database to `"all"` by Python truthiness. -/
def get_default_backup_name (cfgDatabase database ts : Str) : Str :=
  let db_part := if database ≠ [] then database
                 else if cfgDatabase ≠ [] then cfgDatabase else "all".data
  "mongo_".data ++ db_part ++ "_".data ++ ts ++ ".archive".data

end MongoDBHandler

namespace SQLiteHandler

/-- `SQLiteHandler.get_default_backup_name`: the name component is the stem of
the configured `db_path` unless a truthy `database` different from
`"sqlite"` is given; format `f"sqlite_{name}_full_{timestamp}.db"`. -/
def get_default_backup_name (db_path database ts : Str) : Str :=
  let name := if database ≠ [] ∧ database ≠ "sqlite".data then database
              else pathStem db_path
  "sqlite_".data ++ name ++ "_full_".data ++ ts ++ ".db".data

end SQLiteHandler

namespace PostgresHandler

/-- Modelled from the spec: `PostgresHandler.get_default_backup_name`
(src/clidup/databases/postgres.py is not in the source tree; only its callers
and tests are).  Per spec section 6 the artifact filename format is
`<db_type>_<db_name>_full_<YYYY-MM-DD>_<HH-MM-SS>.<ext>` with extension `sql`
for the Postgres backend, and the docstring examples of
`extract_db_name_from_filename` show exactly this shape. -/
def get_default_backup_name (database ts : Str) : Str :=
  "postgres_".data ++ database ++ "_full_".data ++ ts ++ ".sql".data

end PostgresHandler

/-! ## Handler factory (src/clidup/databases/factory.py) -/

/-- One constructor per entry of `DatabaseFactory._handlers`; each handler is
constructed from the configuration mapping it is given. -/
inductive DBHandler (α : Type) where
  | postgresH : α → DBHandler α
  | mysqlH : α → DBHandler α
  | sqliteH : α → DBHandler α
  | mongodbH : α → DBHandler α
deriving DecidableEq

/-- Keys of `DatabaseFactory._handlers`, in insertion order. -/
def supported_types : List Str :=
  ["postgres".data, "mysql".data, "sqlite".data, "mongodb".data]

namespace DatabaseFactory

/-- `DatabaseFactory.get_handler`: dictionary lookup on the static handler
table; an unknown tag raises
`ValueError(f"Unsupported database type: {db_type}. Supported types: {list(cls._handlers.keys())}")`. -/
def get_handler {α : Type} (db_type : Str) (config : α) : Except Str (DBHandler α) :=
  if db_type = "postgres".data then .ok (.postgresH config)
  else if db_type = "mysql".data then .ok (.mysqlH config)
  else if db_type = "sqlite".data then .ok (.sqliteH config)
  else if db_type = "mongodb".data then .ok (.mongodbH config)
  else .error ("Unsupported database type: ".data ++ db_type ++
    ". Supported types: [\x27postgres\x27, \x27mysql\x27, \x27sqlite\x27, \x27mongodb\x27]".data)

end DatabaseFactory

/-! ## Subprocess model -/

/-- One `subprocess.run` invocation: its argv list, the MYSQL_PWD entry added
to the inherited environment (if any), the `timeout=` argument in seconds, and
the file connected to stdin (if any). -/
structure SpawnSpec where
  argv : List Str
  mysqlPwd : Option Str
  timeoutSec : Nat
  stdinFromFile : Option Str
deriving DecidableEq

/-- Abstracted outcome of one external-tool run: normal completion with the
captured stdout, a `CalledProcessError` with the captured stderr, or a
`subprocess.TimeoutExpired`. -/
inductive RunOutcome where
  | ok : Str → RunOutcome
  | err : Str → RunOutcome
  | timedOut : RunOutcome

/-- Python exceptions relevant to the modeled operations. -/
inductive PyError where
  | runtimeError : Str → PyError
  | timeoutExpired : Str → Nat → PyError

/-- Is the error timeout-classified: either a propagated
`subprocess.TimeoutExpired` or a `RuntimeError` whose message speaks of a
timeout? -/
def isTimeoutClassified : PyError → Bool
  | .timeoutExpired _ _ => true
  | .runtimeError msg => hasSub "timeout".data msg || hasSub "timed out".data msg

/-! ## MySQL handler (src/clidup/databases/mysql.py) -/

/-- Connection fields bound by `MySQLHandler.__init__`. -/
structure MySQLConfig where
  host : Str
  port : Nat
  username : Str
  password : Str
  database : Str
deriving DecidableEq

namespace MySQLHandler

/-- `MySQLHandler._get_env`: the MYSQL_PWD entry added to a copy of the
inherited environment — set exactly when the configured password is truthy. -/
def get_env (c : MySQLConfig) : Option Str :=
  if c.password = [] then none else some c.password

/-- The probe spawned by `MySQLHandler.validate_connection`:
`mysql -h host -P port -u user -e "SELECT 1;"`, `timeout=10`. -/
def validate_connection_cmd (c : MySQLConfig) : SpawnSpec :=
  { argv := ["mysql".data, "-h".data, c.host, "-P".data, portStr c.port,
             "-u".data, c.username, "-e".data, "SELECT 1;".data]
    mysqlPwd := get_env c
    timeoutSec := 10
    stdinFromFile := none }

/-- `MySQLHandler.validate_connection` result as a function of the probe
outcome: success returns `True`; `TimeoutExpired` and `CalledProcessError` are
re-raised as `RuntimeError`s with diagnostic messages. -/
def validate_connection_result (c : MySQLConfig) : RunOutcome → Except PyError Bool
  | .ok _ => .ok true
  | .timedOut => .error (.runtimeError
      ("Connection timeout to MySQL at ".data ++ c.host ++ ":".data ++ portStr c.port ++
       ". Check that the server is running and network is accessible.".data))
  | .err stderr => .error (.runtimeError
      ("Cannot connect to MySQL at ".data ++ c.host ++ ":".data ++ portStr c.port ++
       ". Check credentials and server status. Error: ".data ++ pyStrip stderr))

/-- The probe spawned by `MySQLHandler._database_exists`:
`mysql ... -e "SHOW DATABASES LIKE '<database>';"`, `timeout=10`. -/
def database_exists_cmd (c : MySQLConfig) (database : Str) : SpawnSpec :=
  { argv := ["mysql".data, "-h".data, c.host, "-P".data, portStr c.port,
             "-u".data, c.username, "-e".data,
             "SHOW DATABASES LIKE \x27".data ++ database ++ "\x27;".data]
    mysqlPwd := get_env c
    timeoutSec := 10
    stdinFromFile := none }

/-- `MySQLHandler._database_exists` result as a function of the probe outcome:
on success, `len(result.stdout.strip().split('\n')) > 1`; on
`CalledProcessError` or `TimeoutExpired`, `True` (assume the database exists
so the restore is not blocked). -/
def database_exists_result : RunOutcome → Bool
  | .ok stdout => decide (1 < (pyStrip stdout).count '\n' + 1)
  | .err _ => true
  | .timedOut => true

/-- The spawn performed by `MySQLHandler.backup`:
`mysqldump -h host -P port -u user --result-file <output_file> <database>`,
`timeout=3600`. -/
def backup_cmd (c : MySQLConfig) (database output_file : Str) : SpawnSpec :=
  { argv := ["mysqldump".data, "-h".data, c.host, "-P".data, portStr c.port,
             "-u".data, c.username, "--result-file".data, output_file, database]
    mysqlPwd := get_env c
    timeoutSec := 3600
    stdinFromFile := none }

/-- The spawn performed by `MySQLHandler.restore`:
`mysql -h host -P port -u user <database>` with the backup file piped to
stdin, `timeout=3600`. -/
def restore_cmd (c : MySQLConfig) (database input_file : Str) : SpawnSpec :=
  { argv := ["mysql".data, "-h".data, c.host, "-P".data, portStr c.port,
             "-u".data, c.username, database]
    mysqlPwd := get_env c
    timeoutSec := 3600
    stdinFromFile := some input_file }

/-- The complete sequence of subprocess invocations performed by the body of
`MySQLHandler.restore`: it opens the input file and runs the single `mysql`
client command — nothing else is spawned. -/
def restore_spawns (c : MySQLConfig) (database input_file : Str) : List SpawnSpec :=
  [restore_cmd c database input_file]

end MySQLHandler

/-! ## MongoDB handler (src/clidup/databases/mongodb.py) -/

/-- Connection fields bound by `MongoDBHandler.__init__`. -/
structure MongoConfig where
  host : Str
  port : Nat
  username : Str
  password : Str
  database : Str
  auth_db : Str
deriving DecidableEq

namespace MongoDBHandler

/-- `MongoDBHandler._build_base_cmd`: tool name, `--host`, `--port`, and — when
the configured username is truthy — `--username`, `--password` (the password
given verbatim as an argv element) and `--authenticationDatabase`. -/
def build_base_cmd (c : MongoConfig) (tool : Str) : List Str :=
  [tool, "--host".data, c.host, "--port".data, portStr c.port] ++
    (if c.username ≠ [] then
      ["--username".data, c.username, "--password".data, c.password,
       "--authenticationDatabase".data, c.auth_db]
     else [])

/-- The probe spawned by `MongoDBHandler.validate_connection` when `mongosh`
is available: base command plus `--eval "db.runCommand({ ping: 1 })"`,
`timeout=10`. -/
def validate_connection_cmd (c : MongoConfig) : SpawnSpec :=
  { argv := build_base_cmd c "mongosh".data ++
      ["--eval".data, "db.runCommand(\x7b ping: 1 \x7d)".data]
    mysqlPwd := none
    timeoutSec := 10
    stdinFromFile := none }

/-- The spawn performed by `MongoDBHandler.backup`: `mongodump` base command
plus `--archive=<output_file> --gzip`, then `--db <target>` when the target
database (argument, falling back to the configured one) is truthy,
`timeout=3600`. -/
def backup_cmd (c : MongoConfig) (database output_file : Str) : SpawnSpec :=
  let target_db := if database ≠ [] then database else c.database
  { argv := build_base_cmd c "mongodump".data ++
      ["--archive=".data ++ output_file, "--gzip".data] ++
      (if target_db ≠ [] then ["--db".data, target_db] else [])
    mysqlPwd := none
    timeoutSec := 3600
    stdinFromFile := none }

/-- The spawn performed by `MongoDBHandler.restore`: `mongorestore` base
command plus `--archive=<input_file> --gzip` (the target-database branch of
the source is a `pass`), `timeout=3600`. -/
def restore_cmd (c : MongoConfig) (input_file : Str) : SpawnSpec :=
  { argv := build_base_cmd c "mongorestore".data ++
      ["--archive=".data ++ input_file, "--gzip".data]
    mysqlPwd := none
    timeoutSec := 3600
    stdinFromFile := none }

/-- `MongoDBHandler.backup` result as a function of the run outcome: only
`CalledProcessError` is caught (re-raised as a `RuntimeError`); a
`subprocess.TimeoutExpired` propagates to the caller unchanged. -/
def backup_result : RunOutcome → Except PyError Unit
  | .ok _ => .ok ()
  | .err stderr => .error (.runtimeError ("Backup failed: ".data ++ stderr))
  | .timedOut => .error (.timeoutExpired "mongodump".data 3600)

end MongoDBHandler

/-! ## Restore orchestration (src/clidup/cli/main.py, restore command) -/

/-- Observable steps of the restore orchestration, in order. -/
inductive RestoreStep where
  | validateTools
  | confirmPrompt
  | handlerRestore
deriving DecidableEq

/-- Modelled from the spec: `perform_restore` (src/clidup/core/restore.py is
not in the source tree; only its caller in src/clidup/cli/main.py is).  Spec
section 4.6: validate tools, then — unless confirmation is explicitly
skipped — prompt for interactive confirmation and abort on decline, and only
then invoke the handler's restore.  The returned list is the trace of steps
actually executed for given `skip_confirmation` and user answer. -/
def perform_restore (skip_confirmation userConfirms : Bool) : List RestoreStep :=
  if skip_confirmation then
    [.validateTools, .handlerRestore]
  else if userConfirms then
    [.validateTools, .confirmPrompt, .handlerRestore]
  else
    [.validateTools, .confirmPrompt]

/-- The guidance message printed by the `restore` command when no database
name can be derived (src/clidup/cli/main.py). -/
def restore_guidance_msg : Str :=
  ("Error: Could not detect database name from filename. " ++
   "Please specify --db-name explicitly.\n" ++
   "Expected format: postgres_<db_name>_full_<YYYY-MM-DD>_<HH-MM-SS>.sql").data

/-- Target-name resolution of the `restore` command: an explicit `--db-name`
is used as given; otherwise the name is decoded from the backup file's base
name; a failed (or falsy) decode aborts with the guidance message. -/
def resolve_db_name (db_name : Option Str) (file_basename : Str) : Except Str Str :=
  match db_name with
  | some n => .ok n
  | none =>
    match extract_db_name_from_filename file_basename with
    | some n => if n = [] then .error restore_guidance_msg else .ok n
    | none => .error restore_guidance_msg

/-- The `restore` command flow after handler construction: resolve the target
database name, then run `perform_restore`; a resolution failure exits before
any restore step is taken, so no step trace is produced. -/
def restore_command (db_name : Option Str) (file_basename : Str)
    (yes userConfirms : Bool) : Except Str (Str × List RestoreStep) :=
  match resolve_db_name db_name file_basename with
  | .error e => .error e
  | .ok n => .ok (n, perform_restore yes userConfirms)

/-- Concrete MySQL configuration used for counterexamples and witnesses
(matches the fixture of src/tests/test_handlers.py). -/
def mysqlTestConfig : MySQLConfig :=
  { host := "localhost".data, port := 3306, username := "root".data,
    password := "password".data, database := "test_db".data }

/-- Concrete MongoDB configuration used for witnesses
(matches the fixture of src/tests/test_handlers.py). -/
def mongoTestConfig : MongoConfig :=
  { host := "localhost".data, port := 27017, username := "admin".data,
    password := "password".data, database := "test_db".data,
    auth_db := "admin".data }

/-! ## Helper lemmas -/

lemma isPrefixOf_append_of {p l t : Str} (h : p.isPrefixOf l = true) :
    p.isPrefixOf (l ++ t) = true := by
  rw [List.isPrefixOf_iff_prefix] at h ⊢
  exact h.trans (List.prefix_append l t)

lemma isPrefixOf_self_append (p t : Str) : p.isPrefixOf (p ++ t) = true := by
  rw [List.isPrefixOf_iff_prefix]
  exact List.prefix_append p t

lemma hasSub_nil_right (pat : Str) (h : pat = []) : ∀ B, hasSub pat B = true := by
  intro B
  cases B with
  | nil => simp [hasSub, h]
  | cons c rest => simp [hasSub, h, List.isPrefixOf]

lemma hasSub_cons (pat : Str) (a : Char) (l : Str) :
    hasSub pat (a :: l) = (pat.isPrefixOf (a :: l) || hasSub pat l) := rfl

lemma hasSub_append_left (pat : Str) :
    ∀ A B : Str, hasSub pat A = true → hasSub pat (A ++ B) = true := by
  intro A
  induction A with
  | nil =>
      intro B h
      simp only [hasSub, beq_iff_eq] at h
      exact hasSub_nil_right pat h B
  | cons a A ih =>
      intro B h
      rw [List.cons_append, hasSub_cons, Bool.or_eq_true]
      rw [hasSub_cons, Bool.or_eq_true] at h
      rcases h with h | h
      · exact Or.inl (by rw [← List.cons_append]; exact isPrefixOf_append_of h)
      · exact Or.inr (ih B h)

lemma hasSub_append_right (pat : Str) :
    ∀ A B : Str, hasSub pat B = true → hasSub pat (A ++ B) = true := by
  intro A
  induction A with
  | nil => intro B h; simpa using h
  | cons a A ih =>
      intro B h
      rw [List.cons_append, hasSub_cons, Bool.or_eq_true]
      exact Or.inr (ih B h)

lemma hasSub_self_append (pat B : Str) : hasSub pat (pat ++ B) = true := by
  cases pat with
  | nil => exact hasSub_nil_right [] rfl B
  | cons p ps =>
      rw [List.cons_append, hasSub_cons, Bool.or_eq_true]
      exact Or.inl (by rw [← List.cons_append]; exact isPrefixOf_self_append (p :: ps) B)

lemma removeAll_cons_ne (p' : Str) (c : Char) (l : Str) (hne : c ≠ '.') :
    removeAll ('.' :: p') (c :: l) = c :: removeAll ('.' :: p') l := by
  have hb : ('.' == c) = false := beq_eq_false_iff_ne.mpr (Ne.symm hne)
  show removeAllF ('.' :: p') (c :: l).length (c :: l) = c :: removeAllF ('.' :: p') l.length l
  rw [List.length_cons]
  simp [removeAllF, List.isPrefixOf, hb]

lemma removeAll_dotfree_append (p' : Str) :
    ∀ A B : Str, (∀ c ∈ A, c ≠ '.') →
      removeAll ('.' :: p') (A ++ B) = A ++ removeAll ('.' :: p') B := by
  intro A
  induction A with
  | nil => intro B _; simp
  | cons a A ih =>
      intro B hA
      rw [List.cons_append,
          removeAll_cons_ne p' a (A ++ B) (hA a (List.mem_cons_self a A)),
          ih B (fun c hc => hA c (List.mem_cons_of_mem a hc)), List.cons_append]

lemma matchDT_inv (l : Str) (h : matchDT l = true) :
    ∃ (c1 c2 c3 c4 c5 c6 c7 c8 c9 c10 c11 c12 : Char) (rest : Str),
      l = c1 :: c2 :: c3 :: c4 :: '-' :: c5 :: c6 :: '-' :: c7 :: c8 :: '_' ::
            c9 :: c10 :: '-' :: c11 :: c12 :: rest
      ∧ (c1.isDigit = true ∧ c2.isDigit = true ∧ c3.isDigit = true ∧ c4.isDigit = true ∧
         c5.isDigit = true ∧ c6.isDigit = true ∧ c7.isDigit = true ∧ c8.isDigit = true ∧
         c9.isDigit = true ∧ c10.isDigit = true ∧ c11.isDigit = true ∧ c12.isDigit = true)
      ∧ (rest = [] ∨ rest = ['\n'] ∨
          ∃ (s1 s2 : Char) (r2 : Str), rest = '-' :: s1 :: s2 :: r2
            ∧ s1.isDigit = true ∧ s2.isDigit = true ∧ (r2 = [] ∨ r2 = ['\n'])) := by
  unfold matchDT at h
  split at h
  case _ y1 y2 y3 y4 mo1 mo2 d1 d2 h1 h2 mi1 mi2 rest =>
    refine ⟨y1, y2, y3, y4, mo1, mo2, d1, d2, h1, h2, mi1, mi2, rest, rfl, ?_, ?_⟩
    · simp only [Bool.and_eq_true] at h
      obtain ⟨⟨⟨⟨⟨⟨⟨⟨⟨⟨⟨⟨hy1, hy2⟩, hy3⟩, hy4⟩, hm1⟩, hm2⟩, hd1⟩, hd2⟩, hh1⟩, hh2⟩, hmi1⟩, hmi2⟩, _⟩ := h
      exact ⟨hy1, hy2, hy3, hy4, hm1, hm2, hd1, hd2, hh1, hh2, hmi1, hmi2⟩
    simp only [Bool.and_eq_true] at h
    have hdt : dtRest rest = true := h.2
    unfold dtRest at hdt
    rw [Bool.or_eq_true] at hdt
    rcases hdt with hdt | hdt
    · simp only [dtEnd, Bool.or_eq_true, beq_iff_eq] at hdt
      rcases hdt with hdt | hdt
      · exact Or.inl hdt
      · exact Or.inr (Or.inl hdt)
    · right; right
      split at hdt
      case _ s1 s2 r2 =>
        simp only [Bool.and_eq_true] at hdt
        refine ⟨s1, s2, r2, rfl, hdt.1.1, hdt.1.2, ?_⟩
        have he : dtEnd r2 = true := hdt.2
        simp only [dtEnd, Bool.or_eq_true, beq_iff_eq] at he
        exact he
      case _ => exact absurd hdt (by simp)
  case _ => exact absurd h (by simp)

lemma validTS_shape (ts : Str) (h : validTS ts = true) :
    ∃ (c1 c2 c3 c4 c5 c6 c7 c8 c9 c10 c11 c12 s1 s2 : Char),
      ts = [c1, c2, c3, c4, '-', c5, c6, '-', c7, c8, '_', c9, c10, '-',
            c11, c12, '-', s1, s2]
      ∧ (c1.isDigit = true ∧ c2.isDigit = true ∧ c3.isDigit = true ∧ c4.isDigit = true ∧
         c5.isDigit = true ∧ c6.isDigit = true ∧ c7.isDigit = true ∧ c8.isDigit = true ∧
         c9.isDigit = true ∧ c10.isDigit = true ∧ c11.isDigit = true ∧ c12.isDigit = true ∧
         s1.isDigit = true ∧ s2.isDigit = true) := by
  unfold validTS at h
  rw [Bool.and_eq_true, beq_iff_eq] at h
  obtain ⟨hm, hlen⟩ := h
  obtain ⟨c1, c2, c3, c4, c5, c6, c7, c8, c9, c10, c11, c12, rest, hshape, hdig, hrest⟩ :=
    matchDT_inv ts hm
  obtain ⟨h1, h2, h3, h4, h5, h6, h7, h8, h9, h10, h11, h12⟩ := hdig
  subst hshape
  simp only [List.length_cons] at hlen
  rcases hrest with rfl | rfl | ⟨s1, s2, r2, rfl, hs1, hs2, hr2⟩
  · simp at hlen
  · simp at hlen
  · rcases hr2 with rfl | rfl
    · exact ⟨c1, c2, c3, c4, c5, c6, c7, c8, c9, c10, c11, c12, s1, s2, rfl,
        h1, h2, h3, h4, h5, h6, h7, h8, h9, h10, h11, h12, hs1, hs2⟩
    · simp at hlen

lemma digit_ne_dot {c : Char} (h : c.isDigit = true) : c ≠ '.' := by
  intro hc; subst hc; exact absurd h (by decide)

lemma validTS_dotfree (ts : Str) (h : validTS ts = true) : ∀ c ∈ ts, c ≠ '.' := by
  obtain ⟨c1, c2, c3, c4, c5, c6, c7, c8, c9, c10, c11, c12, s1, s2, rfl, hdig⟩ :=
    validTS_shape ts h
  obtain ⟨h1, h2, h3, h4, h5, h6, h7, h8, h9, h10, h11, h12, hs1, hs2⟩ := hdig
  intro c hc
  simp only [List.mem_cons, List.not_mem_nil, or_false] at hc
  rcases hc with rfl | rfl | rfl | rfl | rfl | rfl | rfl | rfl | rfl | rfl | rfl | rfl |
    rfl | rfl | rfl | rfl | rfl | rfl | rfl
  all_goals first
    | exact digit_ne_dot (by assumption)
    | decide

lemma validTS_length (ts : Str) (h : validTS ts = true) : ts.length = 19 := by
  unfold validTS at h
  rw [Bool.and_eq_true, beq_iff_eq] at h
  exact h.2

lemma validTS_getLast (ts : Str) (h : validTS ts = true) :
    ∃ d, ts.getLast? = some d ∧ d.isDigit = true := by
  obtain ⟨c1, c2, c3, c4, c5, c6, c7, c8, c9, c10, c11, c12, s1, s2, rfl, hdig⟩ :=
    validTS_shape ts h
  exact ⟨s2, by simp [List.getLast?_cons_cons], hdig.2.2.2.2.2.2.2.2.2.2.2.2.2⟩

lemma matchDT_not_long (l : Str) (h : matchDT l = true) (hlen : 20 ≤ l.length)
    (d : Char) (hd : l.getLast? = some d) (hdig : d.isDigit = true) : False := by
  obtain ⟨c1, c2, c3, c4, c5, c6, c7, c8, c9, c10, c11, c12, rest, rfl, _, hrest⟩ :=
    matchDT_inv l h
  simp only [List.length_cons] at hlen
  rcases hrest with rfl | rfl | ⟨s1, s2, r2, rfl, _, _, hr2⟩
  · simp only [List.length_nil] at hlen; omega
  · simp only [List.length_cons, List.length_nil] at hlen; omega
  · rcases hr2 with rfl | rfl
    · simp only [List.length_cons, List.length_nil] at hlen; omega
    · rw [show (c1 :: c2 :: c3 :: c4 :: '-' :: c5 :: c6 :: '-' :: c7 :: c8 :: '_' ::
          c9 :: c10 :: '-' :: c11 :: c12 :: '-' :: s1 :: s2 :: ['\n'] : Str).getLast?
          = some '\n' by simp [List.getLast?_cons_cons]] at hd
      rw [Option.some_inj] at hd
      subst hd
      exact absurd hdig (by decide)

lemma tailMatch_full_ts (ts : Str) (hts : validTS ts = true) :
    tailMatch ("_full_".data ++ ts) = true := by
  unfold tailMatch
  rw [Bool.and_eq_true]
  constructor
  · exact isPrefixOf_self_append "_full_".data ts
  · have h6 : "_full_".data.length = 6 := rfl
    rw [show (6 : Nat) = "_full_".data.length from rfl, List.drop_left]
    unfold validTS at hts
    rw [Bool.and_eq_true] at hts
    exact hts.1

lemma tailMatch_mid_false (d2 ts : Str) (hts : validTS ts = true) (hd2 : d2 ≠ []) :
    tailMatch (d2 ++ ("_full_".data ++ ts)) = false := by
  unfold tailMatch
  cases hpre : "_full_".data.isPrefixOf (d2 ++ ("_full_".data ++ ts)) with
  | false => simp
  | true =>
    rw [Bool.true_and]
    cases hm : matchDT ((d2 ++ ("_full_".data ++ ts)).drop 6) with
    | false => rfl
    | true =>
      exfalso
      rw [List.isPrefixOf_iff_prefix] at hpre
      obtain ⟨t, ht⟩ := hpre
      have hdrop : (d2 ++ ("_full_".data ++ ts)).drop 6 = t := by
        rw [← ht, show (6 : Nat) = "_full_".data.length from rfl, List.drop_left]
      rw [hdrop] at hm
      have htslen : ts.length = 19 := validTS_length ts hts
      have hts_ne : ts ≠ [] := by
        intro hnil; rw [hnil] at htslen; simp at htslen
      have hlen_eq : 6 + t.length = d2.length + (6 + 19) := by
        have := congrArg List.length ht
        simp only [List.length_append] at this
        rw [htslen] at this
        have h6 : ("_full_".data : Str).length = 6 := rfl
        omega
      have htlen : 20 ≤ t.length := by
        have : 1 ≤ d2.length := by
          cases d2 with
          | nil => exact absurd rfl hd2
          | cons a l => simp
        omega
      have ht_ne : t ≠ [] := by
        intro hnil; rw [hnil] at htlen; simp at htlen
      obtain ⟨d, hdlast, hddig⟩ := validTS_getLast ts hts
      have hlast : t.getLast? = some d := by
        have e1 : ("_full_".data ++ t).getLast? = t.getLast? :=
          List.getLast?_append_of_ne_nil "_full_".data ht_ne
        have e2 : (d2 ++ ("_full_".data ++ ts)).getLast? = ts.getLast? := by
          rw [List.getLast?_append_of_ne_nil d2
            (by intro hnil; exact hts_ne (List.append_eq_nil.mp hnil).2),
            List.getLast?_append_of_ne_nil "_full_".data hts_ne]
        rw [← e1, ht, e2, hdlast]
      exact matchDT_not_long t hm htlen d hlast hddig

lemma scanSplit_full (ts : Str) (hts : validTS ts = true) :
    ∀ (db acc : Str), db ≠ [] → (∀ c ∈ db, c ≠ '\n') →
      scanSplit acc (db ++ ("_full_".data ++ ts)) = some (acc ++ db) := by
  intro db
  induction db with
  | nil => intro acc h _; exact absurd rfl h
  | cons c db ih =>
    intro acc _ hnl
    rw [List.cons_append]
    unfold scanSplit
    rw [if_neg (hnl c (List.mem_cons_self c db))]
    cases hdb : db with
    | nil =>
      simp only [List.nil_append]
      rw [if_pos (tailMatch_full_ts ts hts)]
    | cons d db2 =>
      have hne2 : db ≠ [] := by rw [hdb]; simp
      rw [← hdb]
      rw [if_neg (by rw [tailMatch_mid_false db ts hts hne2]; simp)]
      rw [ih (acc ++ [c]) hne2 (fun x hx => hnl x (List.mem_cons_of_mem c hx)),
          List.append_assoc]
      rfl

lemma extract_roundtrip (db ts : Str) (hne : db ≠ [])
    (hdb : ∀ c ∈ db, c ≠ '.' ∧ c ≠ '\n') (hts : validTS ts = true) :
    extract_db_name_from_filename (PostgresHandler.get_default_backup_name db ts)
      = some db := by
  have hpre_dotfree : ∀ c ∈ "postgres_".data ++ (db ++ ("_full_".data ++ ts)), c ≠ '.' := by
    intro c hc
    simp only [List.mem_append] at hc
    rcases hc with hc | hc | hc | hc
    · exact (by decide : ∀ x ∈ "postgres_".data, x ≠ '.') c hc
    · exact (hdb c hc).1
    · exact (by decide : ∀ x ∈ "_full_".data, x ≠ '.') c hc
    · exact validTS_dotfree ts hts c hc
  have hname : PostgresHandler.get_default_backup_name db ts
      = ("postgres_".data ++ (db ++ ("_full_".data ++ ts))) ++ ".sql".data := by
    unfold PostgresHandler.get_default_backup_name
    simp [List.append_assoc]
  have hstrip : removeAll ".sql".data (removeAll ".tar".data (removeAll ".tar.gz".data
      (("postgres_".data ++ (db ++ ("_full_".data ++ ts))) ++ ".sql".data)))
      = "postgres_".data ++ (db ++ ("_full_".data ++ ts)) := by
    rw [show ".tar.gz".data = '.' :: "tar.gz".data from rfl,
        removeAll_dotfree_append "tar.gz".data _ _ hpre_dotfree,
        show removeAll ('.' :: "tar.gz".data) ".sql".data = ".sql".data from rfl]
    rw [show ".tar".data = '.' :: "tar".data from rfl,
        removeAll_dotfree_append "tar".data _ _ hpre_dotfree,
        show removeAll ('.' :: "tar".data) ".sql".data = ".sql".data from rfl]
    rw [show ".sql".data = '.' :: "sql".data from rfl,
        removeAll_dotfree_append "sql".data _ _ hpre_dotfree,
        show removeAll ('.' :: "sql".data) ('.' :: "sql".data) = [] from rfl,
        List.append_nil]
  rw [hname]
  show (if "postgres_".data.isPrefixOf
          (removeAll ".sql".data (removeAll ".tar".data (removeAll ".tar.gz".data
            (("postgres_".data ++ (db ++ ("_full_".data ++ ts))) ++ ".sql".data))))
        then scanSplit [] ((removeAll ".sql".data (removeAll ".tar".data
            (removeAll ".tar.gz".data
              (("postgres_".data ++ (db ++ ("_full_".data ++ ts))) ++ ".sql".data)))).drop 9)
        else none) = some db
  rw [hstrip, if_pos (isPrefixOf_self_append "postgres_".data _),
      show (9 : Nat) = "postgres_".data.length from rfl, List.drop_left,
      scanSplit_full ts hts db [] hne (fun c hc => (hdb c hc).2)]
  rw [List.nil_append]

lemma extract_head_not_p (c : Char) (l : Str) (hdot : c ≠ '.') (hp : c ≠ 'p') :
    extract_db_name_from_filename (c :: l) = none := by
  have h1 : removeAll ".tar.gz".data (c :: l) = c :: removeAll ".tar.gz".data l := by
    rw [show ".tar.gz".data = '.' :: "tar.gz".data from rfl]
    exact removeAll_cons_ne "tar.gz".data c l hdot
  have h2 : removeAll ".tar".data (c :: removeAll ".tar.gz".data l)
      = c :: removeAll ".tar".data (removeAll ".tar.gz".data l) := by
    rw [show ".tar".data = '.' :: "tar".data from rfl]
    exact removeAll_cons_ne "tar".data c _ hdot
  have h3 : removeAll ".sql".data (c :: removeAll ".tar".data (removeAll ".tar.gz".data l))
      = c :: removeAll ".sql".data (removeAll ".tar".data (removeAll ".tar.gz".data l)) := by
    rw [show ".sql".data = '.' :: "sql".data from rfl]
    exact removeAll_cons_ne "sql".data c _ hdot
  obtain ⟨X, hX⟩ : ∃ X, removeAll ".sql".data (removeAll ".tar".data
      (removeAll ".tar.gz".data (c :: l))) = c :: X :=
    ⟨removeAll ".sql".data (removeAll ".tar".data (removeAll ".tar.gz".data l)),
     by rw [h1, h2, h3]⟩
  have hpre : "postgres_".data.isPrefixOf (c :: X) = false := by
    have hb : ('p' == c) = false := beq_eq_false_iff_ne.mpr (Ne.symm hp)
    simp [List.isPrefixOf, hb]
  show (if "postgres_".data.isPrefixOf (removeAll ".sql".data (removeAll ".tar".data
          (removeAll ".tar.gz".data (c :: l))))
        then scanSplit [] ((removeAll ".sql".data (removeAll ".tar".data
          (removeAll ".tar.gz".data (c :: l)))).drop 9)
        else none) = none
  rw [hX, hpre]
  rfl

/-! ## Claim theorems -/

/-- Claim C1, counterexample: at the concrete valid input
`(db_type = mysql, db_name = "mydb", timestamp = "2026-01-07_23-45-12")`
(where `"mydb"` contains no timestamp-suffix substring) decoding the encoded
backup filename does not recover the database name: the decoder's pattern is
anchored on the literal `postgres_` prefix, so it returns `none` on
`"mysql_mydb_full_2026-01-07_23-45-12.sql"`. -/
theorem c1_counterexample :
    extract_db_name_from_filename
      (MySQLHandler.get_default_backup_name "mydb".data "2026-01-07_23-45-12".data)
      ≠ some "mydb".data := by decide

/-- Claim C1 (amended): the decode/encode round-trip holds only for the
Postgres backend.  For every valid database name (nonempty, containing no dot
and no newline) and well-formed timestamp, decoding the Postgres-format
filename recovers the name exactly, while the filenames produced by the MySQL
and MongoDB handlers (prefixes `mysql_` and `mongo_`) always decode to
`none`. -/
theorem c1_roundtrip_postgres_only (db ts cfgDb : Str) (hne : db ≠ [])
    (hdb : ∀ c ∈ db, c ≠ '.' ∧ c ≠ '\n') (hts : validTS ts = true) :
    extract_db_name_from_filename (PostgresHandler.get_default_backup_name db ts)
      = some db
    ∧ extract_db_name_from_filename (MySQLHandler.get_default_backup_name db ts)
      = none
    ∧ extract_db_name_from_filename
        (MongoDBHandler.get_default_backup_name cfgDb db ts) = none := by
  refine ⟨extract_roundtrip db ts hne hdb hts, ?_, ?_⟩
  · have hm : MySQLHandler.get_default_backup_name db ts
        = 'm' :: ("ysql_".data ++ db ++ "_full_".data ++ ts ++ ".sql".data) := by
      unfold MySQLHandler.get_default_backup_name
      rfl
    rw [hm]
    exact extract_head_not_p 'm' _ (by decide) (by decide)
  · obtain ⟨Z, hZ⟩ : ∃ Z, MongoDBHandler.get_default_backup_name cfgDb db ts
        = 'm' :: Z := by
      refine ⟨"ongo_".data ++ (if db ≠ [] then db
        else if cfgDb ≠ [] then cfgDb else "all".data) ++
          "_".data ++ ts ++ ".archive".data, ?_⟩
      unfold MongoDBHandler.get_default_backup_name
      rfl
    rw [hZ]
    exact extract_head_not_p 'm' _ (by decide) (by decide)

/-- Witness for C1: the amended round-trip evaluated at the concrete input
`db_name = "mydb"`, `timestamp = "2026-01-07_23-45-12"`. -/
theorem c1_witness :
    extract_db_name_from_filename
      (PostgresHandler.get_default_backup_name "mydb".data "2026-01-07_23-45-12".data)
      = some "mydb".data :=
  (c1_roundtrip_postgres_only "mydb".data "2026-01-07_23-45-12".data []
    (by decide) (by decide) (by decide)).1

/-- Claim C2, counterexample: the MongoDB handler's default backup name at the
concrete input `db_name = "mydb"`, `timestamp = "2026-01-07_23-45-12"` is
`"mongo_mydb_2026-01-07_23-45-12.archive"`, which is not of the claimed exact
form `<db_type>_<db_name>_full_<ts>.<ext>` for any of the three extensions:
its prefix is `mongo_` (not the factory tag `mongodb`) and it contains no
`_full_` marker at all. -/
theorem c2_counterexample :
    MongoDBHandler.get_default_backup_name [] "mydb".data "2026-01-07_23-45-12".data
      = "mongo_mydb_2026-01-07_23-45-12.archive".data
    ∧ MongoDBHandler.get_default_backup_name [] "mydb".data "2026-01-07_23-45-12".data
      ≠ "mongodb_mydb_full_2026-01-07_23-45-12.sql".data
    ∧ MongoDBHandler.get_default_backup_name [] "mydb".data "2026-01-07_23-45-12".data
      ≠ "mongodb_mydb_full_2026-01-07_23-45-12.archive".data
    ∧ MongoDBHandler.get_default_backup_name [] "mydb".data "2026-01-07_23-45-12".data
      ≠ "mongodb_mydb_full_2026-01-07_23-45-12.db".data
    ∧ hasSub "_full_".data
        (MongoDBHandler.get_default_backup_name [] "mydb".data "2026-01-07_23-45-12".data)
      = false := by
  refine ⟨by decide, by decide, by decide, by decide, by decide⟩

/-- Claim C2 (amended): the MySQL, SQLite and Postgres handlers produce
`<tag>_<db_name>_full_<timestamp>.<sql|db|sql>` (for SQLite only when an
explicit name different from `"sqlite"` is given; otherwise the configured
db-file stem is used); the MongoDB handler instead produces
`mongo_<db_name>_<timestamp>.archive`, with prefix `mongo` rather than its
factory tag `mongodb` and without the `_full` marker. -/
theorem c2_format_amended (db ts cfgDb db_path : Str) (h1 : db ≠ [])
    (h2 : db ≠ "sqlite".data) :
    MySQLHandler.get_default_backup_name db ts
      = "mysql_".data ++ db ++ "_full_".data ++ ts ++ ".sql".data
    ∧ PostgresHandler.get_default_backup_name db ts
      = "postgres_".data ++ db ++ "_full_".data ++ ts ++ ".sql".data
    ∧ SQLiteHandler.get_default_backup_name db_path db ts
      = "sqlite_".data ++ db ++ "_full_".data ++ ts ++ ".db".data
    ∧ MongoDBHandler.get_default_backup_name cfgDb db ts
      = "mongo_".data ++ db ++ "_".data ++ ts ++ ".archive".data := by
  refine ⟨rfl, rfl, ?_, ?_⟩
  · unfold SQLiteHandler.get_default_backup_name
    rw [if_pos ⟨h1, h2⟩]
  · unfold MongoDBHandler.get_default_backup_name
    rw [if_pos h1]

/-- Witness for C2: the amended format statement evaluated at
`db_name = "mydb"`, `timestamp = "2026-01-07_23-45-12"`,
`db_path = "data.db"`. -/
theorem c2_witness :
    SQLiteHandler.get_default_backup_name "data.db".data "mydb".data
      "2026-01-07_23-45-12".data
      = "sqlite_mydb_full_2026-01-07_23-45-12.db".data := by
  have h := c2_format_amended "mydb".data "2026-01-07_23-45-12".data []
    "data.db".data (by decide) (by decide)
  rw [h.2.2.1]
  decide

/-- Claim C3: the handler factory is total over the closed tag set — for each
of `postgres`, `mysql`, `sqlite`, `mongodb` it returns a handler of the
matching variant constructed from the given configuration, and for any other
tag it fails with a `ValueError` whose message names the offending tag and
lists all four supported tags. -/
theorem c3_factory_totality {α : Type} (cfg : α) (tag : Str)
    (h : tag ∉ supported_types) :
    DatabaseFactory.get_handler "postgres".data cfg = .ok (.postgresH cfg)
    ∧ DatabaseFactory.get_handler "mysql".data cfg = .ok (.mysqlH cfg)
    ∧ DatabaseFactory.get_handler "sqlite".data cfg = .ok (.sqliteH cfg)
    ∧ DatabaseFactory.get_handler "mongodb".data cfg = .ok (.mongodbH cfg)
    ∧ ∃ msg, DatabaseFactory.get_handler tag cfg = .error msg
        ∧ hasSub tag msg = true
        ∧ hasSub "postgres".data msg = true
        ∧ hasSub "mysql".data msg = true
        ∧ hasSub "sqlite".data msg = true
        ∧ hasSub "mongodb".data msg = true := by
  simp only [supported_types, List.mem_cons, List.not_mem_nil, or_false, not_or] at h
  obtain ⟨h1, h2, h3, h4⟩ := h
  refine ⟨rfl, rfl, rfl, rfl,
    "Unsupported database type: ".data ++ (tag ++
      ". Supported types: [\x27postgres\x27, \x27mysql\x27, \x27sqlite\x27, \x27mongodb\x27]".data),
    ?_, ?_, ?_, ?_, ?_, ?_⟩
  · unfold DatabaseFactory.get_handler
    rw [if_neg h1, if_neg h2, if_neg h3, if_neg h4, List.append_assoc]
  · exact hasSub_append_right tag _ _ (hasSub_self_append tag _)
  · exact hasSub_append_right _ _ _ (hasSub_append_right _ _ _ (by decide))
  · exact hasSub_append_right _ _ _ (hasSub_append_right _ _ _ (by decide))
  · exact hasSub_append_right _ _ _ (hasSub_append_right _ _ _ (by decide))
  · exact hasSub_append_right _ _ _ (hasSub_append_right _ _ _ (by decide))

/-- Witness for C3: factory totality evaluated for a supported tag
(`postgres`) and the unsupported tag `oracle`. -/
theorem c3_witness :
    DatabaseFactory.get_handler "postgres".data (0 : Nat)
      = .ok (.postgresH 0)
    ∧ ∃ msg, DatabaseFactory.get_handler "oracle".data (0 : Nat) = .error msg
        ∧ hasSub "oracle".data msg = true := by
  have h := c3_factory_totality (0 : Nat) "oracle".data (by decide)
  obtain ⟨msg, hmsg⟩ := h.2.2.2.2
  exact ⟨h.1, msg, hmsg.1, hmsg.2.1⟩

/-- Claim C4: with skip-confirmation unset and the user declining the prompt,
the restore orchestration aborts after the confirmation prompt and the
handler's restore step never appears in the executed trace
(spec-modelled `perform_restore`). -/
theorem c4_restore_confirmation_gate :
    perform_restore false false = [RestoreStep.validateTools, RestoreStep.confirmPrompt]
    ∧ RestoreStep.handlerRestore ∉ perform_restore false false := by
  refine ⟨rfl, ?_⟩
  decide

/-- Claim C5, counterexample: at the concrete configuration of the test
fixtures, restoring `"mydb"` from `"backup.sql"` spawns exactly one
subprocess — the `mysql` client fed from the backup file — and the
`SHOW DATABASES` existence probe of `_database_exists` is not among the
spawned commands: `MySQLHandler.restore` never performs the existence
check. -/
theorem c5_counterexample :
    MySQLHandler.restore_spawns mysqlTestConfig "mydb".data "backup.sql".data
      = [MySQLHandler.restore_cmd mysqlTestConfig "mydb".data "backup.sql".data]
    ∧ MySQLHandler.database_exists_cmd mysqlTestConfig "mydb".data
        ∉ MySQLHandler.restore_spawns mysqlTestConfig "mydb".data "backup.sql".data := by
  refine ⟨rfl, ?_⟩
  decide

/-- Claim C5 (amended): `MySQLHandler._database_exists` does treat its own
probe failure (non-zero exit or timeout) as "assume exists" and returns
`True`, but `MySQLHandler.restore` never invokes the check: for every
configuration the restore spawn sequence contains no command with the
existence probe's argument list. -/
theorem c5_existence_check_amended (c : MySQLConfig) (db f e : Str) :
    MySQLHandler.database_exists_result (.err e) = true
    ∧ MySQLHandler.database_exists_result .timedOut = true
    ∧ ∀ s ∈ MySQLHandler.restore_spawns c db f,
        s.argv ≠ (MySQLHandler.database_exists_cmd c db).argv := by
  refine ⟨rfl, rfl, ?_⟩
  intro s hs
  rw [MySQLHandler.restore_spawns, List.mem_singleton] at hs
  subst hs
  intro hcon
  have hlen := congrArg List.length hcon
  simp [MySQLHandler.restore_cmd, MySQLHandler.database_exists_cmd] at hlen

/-- Witness for C5: the amended statement evaluated at the concrete test
configuration. -/
theorem c5_witness :
    MySQLHandler.database_exists_result (RunOutcome.err "boom".data) = true
    ∧ (MySQLHandler.restore_cmd mysqlTestConfig "mydb".data "b.sql".data).argv
        ≠ (MySQLHandler.database_exists_cmd mysqlTestConfig "mydb".data).argv := by
  refine ⟨(c5_existence_check_amended mysqlTestConfig "mydb".data "b.sql".data
    "boom".data).1, ?_⟩
  exact (c5_existence_check_amended mysqlTestConfig "mydb".data "b.sql".data
    "boom".data).2.2
    (MySQLHandler.restore_cmd mysqlTestConfig "mydb".data "b.sql".data)
    (by rw [MySQLHandler.restore_spawns]; exact List.mem_singleton.mpr rfl)

/-- Claim C6: for every MySQL operation spawning an external tool, the argv
list does not depend on the configured password (it is identical for any two
password values), and a nonempty password reaches the child process only as
the MYSQL_PWD environment entry. -/
theorem c6_mysql_password_env_only (c : MySQLConfig) (p₁ p₂ db outf inf : Str)
    (hp : p₁ ≠ []) :
    (MySQLHandler.validate_connection_cmd { c with password := p₁ }).argv
      = (MySQLHandler.validate_connection_cmd { c with password := p₂ }).argv
    ∧ (MySQLHandler.database_exists_cmd { c with password := p₁ } db).argv
      = (MySQLHandler.database_exists_cmd { c with password := p₂ } db).argv
    ∧ (MySQLHandler.backup_cmd { c with password := p₁ } db outf).argv
      = (MySQLHandler.backup_cmd { c with password := p₂ } db outf).argv
    ∧ (MySQLHandler.restore_cmd { c with password := p₁ } db inf).argv
      = (MySQLHandler.restore_cmd { c with password := p₂ } db inf).argv
    ∧ (MySQLHandler.validate_connection_cmd { c with password := p₁ }).mysqlPwd
      = some p₁
    ∧ (MySQLHandler.database_exists_cmd { c with password := p₁ } db).mysqlPwd
      = some p₁
    ∧ (MySQLHandler.backup_cmd { c with password := p₁ } db outf).mysqlPwd = some p₁
    ∧ (MySQLHandler.restore_cmd { c with password := p₁ } db inf).mysqlPwd
      = some p₁ := by
  refine ⟨rfl, rfl, rfl, rfl, ?_, ?_, ?_, ?_⟩ <;>
    simp [MySQLHandler.validate_connection_cmd, MySQLHandler.database_exists_cmd,
      MySQLHandler.backup_cmd, MySQLHandler.restore_cmd, MySQLHandler.get_env, hp]

/-- Witness for C6: password noninterference evaluated at the concrete test
configuration with passwords `"secret"` and `"other"`. -/
theorem c6_witness :
    (MySQLHandler.backup_cmd { mysqlTestConfig with password := "secret".data }
      "mydb".data "out.sql".data).argv
      = (MySQLHandler.backup_cmd { mysqlTestConfig with password := "other".data }
        "mydb".data "out.sql".data).argv
    ∧ (MySQLHandler.backup_cmd { mysqlTestConfig with password := "secret".data }
        "mydb".data "out.sql".data).mysqlPwd = some "secret".data := by
  have h := c6_mysql_password_env_only mysqlTestConfig "secret".data "other".data
    "mydb".data "out.sql".data "in.sql".data (by decide)
  exact ⟨h.2.2.1, h.2.2.2.2.2.2.1⟩

/-- Claim C7: every modeled external-tool invocation carries a bounded
timeout — 3600 seconds (1 hour) for backup and restore, 10 seconds for the
connectivity and existence probes — and on expiry the call surfaces a
timeout-classified error (a timeout-mentioning `RuntimeError` for the MySQL
connection probe; a propagated `subprocess.TimeoutExpired` for the MongoDB
backup) rather than hanging. -/
theorem c7_bounded_timeouts (c : MySQLConfig) (m : MongoConfig) (db outf inf : Str) :
    (MySQLHandler.validate_connection_cmd c).timeoutSec = 10
    ∧ (MySQLHandler.database_exists_cmd c db).timeoutSec = 10
    ∧ (MySQLHandler.backup_cmd c db outf).timeoutSec = 3600
    ∧ (MySQLHandler.restore_cmd c db inf).timeoutSec = 3600
    ∧ (MongoDBHandler.validate_connection_cmd m).timeoutSec = 10
    ∧ (MongoDBHandler.backup_cmd m db outf).timeoutSec = 3600
    ∧ (MongoDBHandler.restore_cmd m inf).timeoutSec = 3600
    ∧ (∃ err, MySQLHandler.validate_connection_result c .timedOut = .error err
        ∧ isTimeoutClassified err = true)
    ∧ (∃ err, MongoDBHandler.backup_result .timedOut = .error err
        ∧ isTimeoutClassified err = true) := by
  refine ⟨rfl, rfl, rfl, rfl, rfl, rfl, rfl, ⟨_, rfl, ?_⟩, ⟨_, rfl, rfl⟩⟩
  show (hasSub "timeout".data ("Connection timeout to MySQL at ".data ++ c.host
      ++ ":".data ++ portStr c.port
      ++ ". Check that the server is running and network is accessible.".data)
    || hasSub "timed out".data ("Connection timeout to MySQL at ".data ++ c.host
      ++ ":".data ++ portStr c.port
      ++ ". Check that the server is running and network is accessible.".data)) = true
  rw [Bool.or_eq_true]
  left
  exact hasSub_append_left _ _ _ (hasSub_append_left _ _ _ (hasSub_append_left _ _ _
    (hasSub_append_left _ _ _ (by decide))))

/-- Claim C8: the decode operation agrees with the documented concrete cases:
the non-greedy match preserves the underscores of `my_production_db`, and an
unmatched filename decodes to `none`. -/
theorem c8_decode_concrete_cases :
    extract_db_name_from_filename
      "postgres_my_production_db_full_2026-01-07_23-45-12.sql.tar".data
      = some "my_production_db".data
    ∧ extract_db_name_from_filename "random_file.sql".data = none := by
  refine ⟨by decide, by decide⟩

/-- Claim C9: the restore command resolves the target database name in order —
an explicit name is used as given; otherwise the name decoded from the file's
base name is used; and when decoding fails the command fails before any
restore step with the guidance message, which names the expected filename
format. -/
theorem c9_restore_name_resolution (f : Str) (yes uc : Bool) :
    (∀ n, restore_command (some n) f yes uc = .ok (n, perform_restore yes uc))
    ∧ (∀ n, extract_db_name_from_filename f = some n → n ≠ [] →
        restore_command none f yes uc = .ok (n, perform_restore yes uc))
    ∧ (extract_db_name_from_filename f = none →
        restore_command none f yes uc = .error restore_guidance_msg)
    ∧ hasSub "postgres_<db_name>_full_<YYYY-MM-DD>_<HH-MM-SS>.sql".data
        restore_guidance_msg = true := by
  refine ⟨fun n => rfl, fun n h hne => ?_, fun h => ?_, by decide⟩
  · simp [restore_command, resolve_db_name, h, hne]
  · simp [restore_command, resolve_db_name, h]

/-- Witness for C9: name resolution evaluated at the concrete inputs
`file = "random_file.sql"` (decode fails, guidance error) and an explicit
`--db-name mydb` (used as given). -/
theorem c9_witness :
    restore_command none "random_file.sql".data false false
      = .error restore_guidance_msg
    ∧ restore_command (some "mydb".data) "random_file.sql".data false false
      = .ok ("mydb".data, perform_restore false false) := by
  have h := c9_restore_name_resolution "random_file.sql".data false false
  exact ⟨h.2.2.1 (by decide), h.1 "mydb".data⟩

/-- Claim C10: whenever a username is configured, every MongoDB external-tool
invocation receives the configured password verbatim in its argv (immediately
after a `--password` flag), so the argv differs for distinct passwords —
unlike the MySQL handler's environment-variable discipline. -/
theorem c10_mongo_password_in_argv (c : MongoConfig) (db outf inf p₁ p₂ : Str)
    (hu : c.username ≠ []) (hp : p₁ ≠ p₂) :
    c.password ∈ (MongoDBHandler.backup_cmd c db outf).argv
    ∧ c.password ∈ (MongoDBHandler.restore_cmd c inf).argv
    ∧ c.password ∈ (MongoDBHandler.validate_connection_cmd c).argv
    ∧ (∃ i, (MongoDBHandler.build_base_cmd c "mongodump".data)[i]?
          = some "--password".data
        ∧ (MongoDBHandler.build_base_cmd c "mongodump".data)[i + 1]?
          = some c.password)
    ∧ (MongoDBHandler.backup_cmd { c with password := p₁ } db outf).argv
      ≠ (MongoDBHandler.backup_cmd { c with password := p₂ } db outf).argv := by
  have hb : ∀ (p : Str) (tool : Str),
      MongoDBHandler.build_base_cmd { c with password := p } tool
      = [tool, "--host".data, c.host, "--port".data, portStr c.port,
         "--username".data, c.username, "--password".data, p,
         "--authenticationDatabase".data, c.auth_db] := by
    intro p tool
    unfold MongoDBHandler.build_base_cmd
    rw [if_pos (show ({ c with password := p } : MongoConfig).username ≠ [] from hu)]
    rfl
  have hbc : ∀ tool : Str, MongoDBHandler.build_base_cmd c tool
      = [tool, "--host".data, c.host, "--port".data, portStr c.port,
         "--username".data, c.username, "--password".data, c.password,
         "--authenticationDatabase".data, c.auth_db] := by
    intro tool
    unfold MongoDBHandler.build_base_cmd
    rw [if_pos hu]
    rfl
  refine ⟨?_, ?_, ?_, ⟨7, ?_, ?_⟩, ?_⟩
  · unfold MongoDBHandler.backup_cmd
    simp [hbc]
  · unfold MongoDBHandler.restore_cmd
    simp [hbc]
  · unfold MongoDBHandler.validate_connection_cmd
    simp [hbc]
  · rw [hbc]
    rfl
  · rw [hbc]
    rfl
  · intro hcon
    unfold MongoDBHandler.backup_cmd at hcon
    simp only [hb, List.cons_append, List.nil_append, List.cons.injEq, true_and] at hcon
    exact hp hcon.1

/-- Witness for C10: the password appears in the backup argv of the concrete
test configuration, and changing the password changes the argv. -/
theorem c10_witness :
    "password".data ∈ (MongoDBHandler.backup_cmd mongoTestConfig "test_db".data
      "out.archive".data).argv
    ∧ (MongoDBHandler.backup_cmd { mongoTestConfig with password := "a".data }
        "test_db".data "out.archive".data).argv
      ≠ (MongoDBHandler.backup_cmd { mongoTestConfig with password := "b".data }
        "test_db".data "out.archive".data).argv := by
  have h := c10_mongo_password_in_argv mongoTestConfig "test_db".data
    "out.archive".data "in.archive".data "a".data "b".data (by decide) (by decide)
  exact ⟨h.1, h.2.2.2.2⟩

end Clidup
